import Mathlib

/-!
Verification development for the website status checker repository.

The repository probes a target URL through five ordered stages
(dns, connection, tls, firstByte, download) and streams incremental
RunResult snapshots to a consumer.  It contains a server-streamed
variant (the express endpoint in server/index.js) and a client-driven
variant (StatusDashboard.performRealChecks), plus shared utilities
(networkUtils.ts) and a stop handler (handleStopChecks).

This file shallowly embeds those functions.  Network operations are
modelled by outcome parameters (an environment record): each network
call is replaced by the outcome the platform would have delivered,
carrying its elapsed milliseconds, and the embedded code reacts to the
outcome exactly as the source does.  JavaScript strings are Lean
Strings; status and wire-type string unions are enumerations (they are
literal unions in the TypeScript types).  Timestamps are modelled as a
millisecond clock threaded through the run.  React state updates are
interpreted sequentially.
-/

namespace WSC

/-- Literal string constants used by the source. -/
def emptyStr : String := ""

def httpSchemeLit : String := "http://"

def httpsSchemeLit : String := "https://"

def httpsLit : String := "https"

def msgSkippedHTTP : String := "Skipped (HTTP)"

def msgConnDefault : String := "Connection failed - network may be down"

def msgConnTimeout : String := "Connection timed out"

def msgConnFailedPrefix : String := "Connection failed: "

def msgTlsDefault : String := "TLS handshake failed"

def msgTlsFailedPrefix : String := "TLS handshake failed: "

def msgReqFailed : String := "Request failed"

def msgReqTimeout : String := "Request timed out"

def msgInvalidDomain : String := "Invalid domain"

def msgDomainNotResolvable : String := "Domain not resolvable"

def msgDnsFailedPrefix : String := "DNS resolution failed: "

def msgServerStatusPrefix : String := "Server responded with status "

def msgStopped : String := "Check stopped by user"

def codeEconnaborted : String := "ECONNABORTED"

def codeEtimedout : String := "ETIMEDOUT"

def nameAbort : String := "AbortError"

def idDns : String := "dns"

def idConnection : String := "connection"

def idTls : String := "tls"

def idFirstByte : String := "firstByte"

def idDownload : String := "download"

def nameDns : String := "DNS Resolution"

def nameConnection : String := "Connection Establishment"

def nameTls : String := "TLS Handshake"

def nameFirstByte : String := "First Byte Received"

def nameDownload : String := "Complete Download"

/-- Tags recording which network operations a run actually performed. -/
def opConnHead : String := "connHead"

def opTlsHead : String := "tlsHead"

def opGetRequest : String := "getRequest"

def opDnsHead1 : String := "dnsHead1"

def opDnsHead2 : String := "dnsHead2"

def opPingGoogle : String := "pingGoogle"

def opSiteHead : String := "siteHead"

def opFetchGet : String := "fetchGet"

def opAxiosGet : String := "axiosGet"

/-- The newline character, for first-line truncation of error messages. -/
def nlChar : Char := Char.ofNat 10

/-- `message.split("\n")[0]`: everything before the first newline. -/
def firstLine (s : String) : String :=
  String.mk (s.data.takeWhile (fun c => decide (c ≠ nlChar)))

/-- JavaScript `s.startsWith(p)` (exact, case-sensitive prefix test). -/
def jsStartsWith (s p : String) : Bool :=
  decide (s.data.take p.data.length = p.data)

/-- The test `/^https?:\/\//i.test(url)`: the string begins, up to ASCII
case, with `http://` or `https://`. -/
def matchesProtoRegex (s : String) : Bool :=
  decide ((s.data.take 7).map Char.toLower = httpSchemeLit.data)
  || decide ((s.data.take 8).map Char.toLower = httpsSchemeLit.data)

/-- networkUtils.ts `ensureProtocol` (same body as the server copy):
empty stays empty, a scheme-less URL gets `https://` prepended. -/
def ensureProtocol (url : String) : String :=
  if url = emptyStr then emptyStr
  else if matchesProtoRegex url then url
  else httpsSchemeLit ++ url

/-- URLInputForm.handleSubmit preprocessing: a scheme-less URL gets
`http://` prepended before being submitted. -/
def formProcess (url : String) : String :=
  if matchesProtoRegex url then url else httpSchemeLit ++ url

/-- The `status` union of CheckStage: "idle" | "loading" | "success" | "error". -/
inductive Status
  | idle
  | loading
  | success
  | error
deriving DecidableEq

/-- One probe stage record (CheckStage in the TypeScript sources). -/
structure Stage where
  id : String
  name : String
  status : Status
  timestamp : Option Nat := none
  durationMs : Option Nat := none
  errorDetails : Option String := none
deriving DecidableEq

/-- The aggregate `results` object built by the server endpoint. -/
structure RunResult where
  stages : List Stage
  isComplete : Bool
  isSuccess : Bool
  totalResponseTime : Nat
  errorMessage : String
  checkLocation : String := emptyStr
  checkIP : String := emptyStr
deriving DecidableEq

/-- The wire `type` union: "update" | "final". -/
inductive WireType
  | update
  | final
deriving DecidableEq

/-- One newline-delimited JSON object written to the response stream. -/
structure Wire where
  type : WireType
  data : RunResult
deriving DecidableEq

/-- A JavaScript error value as the source inspects it. -/
structure JsError where
  code : Option String := none
  message : Option String := none
  jsName : Option String := none
  responseStatus : Option Nat := none
deriving DecidableEq

/-- Outcome of one network operation: resolved after `ms` milliseconds,
or rejected with error `e` after `ms` milliseconds. -/
inductive NetOutcome
  | ok (ms : Nat)
  | err (e : JsError) (ms : Nat)
deriving DecidableEq

/-- Outcome of the server's combined firstByte/download request:
body received and drained, failure before the first byte, or failure
after the first byte while draining. -/
inductive FBOutcome
  | bodyOk (fbMs dlMs : Nat)
  | fbErr (e : JsError) (fbMs : Nat)
  | dlErr (e : JsError) (fbMs dlMs : Nat)
deriving DecidableEq

/-- Environment of one server run: the outcome each network operation
would deliver, plus the location lookup results. -/
structure ServerEnv where
  dnsMs : Nat
  conn : NetOutcome
  tls : NetOutcome
  fb : FBOutcome
  location : String := emptyStr
  ip : String := emptyStr
deriving DecidableEq

/-- A finished server run: the stream of wire objects written, and the
network operations that were attempted. -/
structure ServerRun where
  wires : List Wire
  ops : List String
deriving DecidableEq

/-- The five stage records the endpoint initialises `results.stages` with. -/
def initialStages : List Stage :=
  [{ id := idDns, name := nameDns, status := Status.idle },
   { id := idConnection, name := nameConnection, status := Status.idle },
   { id := idTls, name := nameTls, status := Status.idle },
   { id := idFirstByte, name := nameFirstByte, status := Status.idle },
   { id := idDownload, name := nameDownload, status := Status.idle }]

/-- In-place update of `results.stages[i]`. -/
def setStage : List Stage → Nat → (Stage → Stage) → List Stage
  | [], _, _ => []
  | s :: rest, 0, f => f s :: rest
  | s :: rest, Nat.succ n, f => s :: setStage rest n f

def setLoading (s : Stage) : Stage :=
  { s with status := Status.loading }

def mkSuccess (now dur : Nat) (s : Stage) : Stage :=
  { s with status := Status.success, timestamp := some now, durationMs := some dur }

def mkFailed (now dur : Nat) (msg : String) (s : Stage) : Stage :=
  { s with status := Status.error, timestamp := some now,
           durationMs := some dur, errorDetails := some msg }

/-- The connection-stage error message (server, lines 192-197). -/
def connErrMsg (e : JsError) : String :=
  if e.code = some codeEconnaborted ∨ e.code = some codeEtimedout then msgConnTimeout
  else
    match e.message with
    | some m => if m = emptyStr then msgConnDefault else msgConnFailedPrefix ++ firstLine m
    | none => msgConnDefault

/-- The TLS-stage error message (server, lines 261-264). -/
def tlsErrMsg (e : JsError) : String :=
  match e.message with
  | some m => if m = emptyStr then msgTlsDefault else msgTlsFailedPrefix ++ firstLine m
  | none => msgTlsDefault

/-- The firstByte/download error message (server, lines 401-406). -/
def fbErrMsg (e : JsError) : String :=
  if e.code = some codeEconnaborted ∨ e.code = some codeEtimedout then msgReqTimeout
  else
    match e.message with
    | some m => if m = emptyStr then msgReqFailed else firstLine m
    | none => msgReqFailed

/-- Server firstByte/download phase (lines 298-437 and the closing
lines 450-452).  `pre` are the wires already written, `t` the clock and
`cum` the `cumulativeTime` accumulator on entry.  Note that on the
fully successful path the source writes the `final` object twice: once
inside the response `end` handler (line 381) and once after the outer
try block (line 451). -/
def fbPhase (pre : List Wire) (ops : List String) (r : RunResult)
    (t cum : Nat) (o : FBOutcome) : ServerRun :=
  let r5 : RunResult := { r with stages := setStage r.stages 3 setLoading }
  let ops := ops ++ [opGetRequest]
  match o with
  | FBOutcome.bodyOk fbMs dlMs =>
    let r6 : RunResult :=
      { r5 with stages := setStage (setStage r5.stages 3 (mkSuccess (t + fbMs) fbMs)) 4 setLoading }
    let r7 : RunResult :=
      { r6 with stages := setStage r6.stages 4 (mkSuccess (t + fbMs + dlMs) dlMs),
                isComplete := true, isSuccess := true,
                totalResponseTime := cum + fbMs + dlMs }
    { wires := pre ++ [Wire.mk WireType.update r5, Wire.mk WireType.update r6,
                       Wire.mk WireType.final r7, Wire.mk WireType.final r7],
      ops := ops }
  | FBOutcome.fbErr e fbMs =>
    let msg := fbErrMsg e
    let r6 : RunResult :=
      { r5 with stages := setStage r5.stages 3 (mkFailed (t + fbMs) fbMs msg),
                isComplete := true, isSuccess := false,
                totalResponseTime := cum + fbMs, errorMessage := msg }
    { wires := pre ++ [Wire.mk WireType.update r5, Wire.mk WireType.final r6],
      ops := ops }
  | FBOutcome.dlErr e fbMs dlMs =>
    let r6 : RunResult :=
      { r5 with stages := setStage (setStage r5.stages 3 (mkSuccess (t + fbMs) fbMs)) 4 setLoading }
    let msg := fbErrMsg e
    let r7 : RunResult :=
      { r6 with stages := setStage r6.stages 4 (mkFailed (t + fbMs + dlMs) dlMs msg),
                isComplete := true, isSuccess := false,
                totalResponseTime := cum + fbMs + dlMs, errorMessage := msg }
    { wires := pre ++ [Wire.mk WireType.update r5, Wire.mk WireType.update r6,
                       Wire.mk WireType.final r7],
      ops := ops }

/-- Server TLS phase (lines 218-296): attempted only when the processed
URL starts with "https"; otherwise marked success with duration 0 and
the skip note, with no request made. -/
def tlsPhase (pre : List Wire) (ops : List String) (r : RunResult)
    (t cum : Nat) (isHttps : Bool) (o : NetOutcome) (fb : FBOutcome) : ServerRun :=
  if isHttps then
    let r5 : RunResult := { r with stages := setStage r.stages 2 setLoading }
    let ops := ops ++ [opTlsHead]
    match o with
    | NetOutcome.ok ms =>
      let r6 : RunResult := { r5 with stages := setStage r5.stages 2 (mkSuccess (t + ms) ms) }
      fbPhase (pre ++ [Wire.mk WireType.update r5, Wire.mk WireType.update r6])
        ops r6 (t + ms) (cum + ms) fb
    | NetOutcome.err e ms =>
      let msg := tlsErrMsg e
      let r6 : RunResult :=
        { r5 with stages := setStage r5.stages 2 (mkFailed (t + ms) ms msg),
                  isComplete := true, isSuccess := false,
                  totalResponseTime := cum + ms, errorMessage := msg }
      { wires := pre ++ [Wire.mk WireType.update r5, Wire.mk WireType.final r6],
        ops := ops }
  else
    let r5 : RunResult :=
      { r with stages := setStage r.stages 2 (fun s =>
          { s with status := Status.success, timestamp := some t,
                   durationMs := some 0, errorDetails := some msgSkippedHTTP }) }
    fbPhase (pre ++ [Wire.mk WireType.update r5]) ops r5 t cum fb

/-- The POST /api/check-website handler (server/index.js lines 86-453),
as a function of the submitted URL and the network outcomes.  The DNS
stage performs no resolution: the source simulates success after a
short delay (lines 127-144). -/
def serverCheck (url : String) (env : ServerEnv) : ServerRun :=
  let processedUrl := ensureProtocol url
  let r0 : RunResult :=
    { stages := initialStages, isComplete := false, isSuccess := false,
      totalResponseTime := 0, errorMessage := emptyStr,
      checkLocation := env.location, checkIP := env.ip }
  let r1 : RunResult := { r0 with stages := setStage r0.stages 0 setLoading }
  let r2 : RunResult := { r1 with stages := setStage r1.stages 0 (mkSuccess env.dnsMs env.dnsMs) }
  let r3 : RunResult := { r2 with stages := setStage r2.stages 1 setLoading }
  let pre := [Wire.mk WireType.update r1, Wire.mk WireType.update r2, Wire.mk WireType.update r3]
  match env.conn with
  | NetOutcome.err e ms =>
    let msg := connErrMsg e
    let r4 : RunResult :=
      { r3 with stages := setStage r3.stages 1 (mkFailed (env.dnsMs + ms) ms msg),
                isComplete := true, isSuccess := false,
                totalResponseTime := env.dnsMs + ms, errorMessage := msg }
    { wires := pre ++ [Wire.mk WireType.final r4], ops := [opConnHead] }
  | NetOutcome.ok ms =>
    let r4 : RunResult := { r3 with stages := setStage r3.stages 1 (mkSuccess (env.dnsMs + ms) ms) }
    tlsPhase (pre ++ [Wire.mk WireType.update r4]) [opConnHead] r4
      (env.dnsMs + ms) (env.dnsMs + ms) (jsStartsWith processedUrl httpsLit) env.tls env.fb

/-- Sum of `durationMs` over the stages currently in success or error
state (the spec's attributed-duration sum). -/
def attributedSum (r : RunResult) : Nat :=
  ((r.stages.filter (fun s =>
      decide (s.status = Status.success ∨ s.status = Status.error))).map
    (fun s => s.durationMs.getD 0)).sum

def defaultStage : Stage :=
  { id := emptyStr, name := emptyStr, status := Status.idle }

def stageAt (stages : List Stage) (i : Nat) : Stage :=
  stages.getD i defaultStage

def defaultWire : Wire :=
  Wire.mk WireType.update
    { stages := [], isComplete := false, isSuccess := false,
      totalResponseTime := 0, errorMessage := emptyStr }

/-- The last wire object a run wrote. -/
def lastWire (run : ServerRun) : Wire :=
  run.wires.getLastD defaultWire

end WSC

namespace WSC

/-- A fully successful run over plain http: every network outcome resolves. -/
def envAllOk : ServerEnv :=
  { dnsMs := 300, conn := NetOutcome.ok 10, tls := NetOutcome.ok 0,
    fb := FBOutcome.bodyOk 5 7 }

def exHttpUrl : String := "http://example.com"

/-- A check history entry (CheckHistoryItem in networkUtils.ts). -/
structure HistoryItem where
  url : String
  timestamp : String
  success : Bool
  responseTime : Nat
  errorMessage : Option String := none
deriving DecidableEq

/-- networkUtils.ts `saveCheckToHistory`: unshift the new item onto the
stored history and keep only the first 50 items. -/
def saveCheckToHistory (item : HistoryItem) (history : List HistoryItem) : List HistoryItem :=
  (item :: history).take 50

/-- The state `handleStopChecks` (server-streamed StatusDashboard)
touches: the reader/abort refs, the React state it sets, the persisted
history, and counters for its outward calls. -/
structure StopState where
  url : String
  totalResponseTime : Nat
  readerActive : Bool
  abortActive : Bool
  isStopped : Bool
  isComplete : Bool
  errorMessage : String
  progress : Nat
  history : List HistoryItem
  readerCancelCalls : Nat
  abortCalls : Nat
  stopCallbackCalls : Nat
deriving DecidableEq

/-- `handleStopChecks` (server-streamed StatusDashboard, lines 91-118):
cancel the reader and abort controller when their refs are set (nulling
the refs), then unconditionally set the stopped/complete state, invoke
`onStopCheck`, and save a cancellation entry to history. -/
def handleStopChecks (ts : String) (s : StopState) : StopState :=
  let s1 := if s.readerActive then
      { s with readerCancelCalls := s.readerCancelCalls + 1, readerActive := false }
    else s
  let s2 := if s1.abortActive then
      { s1 with abortCalls := s1.abortCalls + 1, abortActive := false }
    else s1
  { s2 with
    isStopped := true, isComplete := true, errorMessage := msgStopped,
    progress := 100, stopCallbackCalls := s2.stopCallbackCalls + 1,
    history := saveCheckToHistory
      { url := s2.url, timestamp := ts, success := false,
        responseTime := s2.totalResponseTime, errorMessage := some msgStopped }
      s2.history }

/-- Outcome of the client firstByte/download phase: the no-cors fetch
succeeds (download then simulated at 500ms), the axios fallback
succeeds, or the fallback fails before or after the first byte. -/
inductive ClientFBOutcome
  | fetchOk (fbMs : Nat)
  | axiosOk (fbMs dlMs : Nat)
  | axiosErrFirstByte (e : JsError) (fbMs : Nat)
  | axiosErrDownload (e : JsError) (fbMs dlMs : Nat)
deriving DecidableEq

/-- Environment of one client-driven run.  `parse` models the browser's
`new URL(s).hostname`: `some host` when `s` parses, `none` when the
constructor throws. -/
structure ClientEnv where
  parse : String → Option String
  dnsFetch1 : NetOutcome
  dnsFetch2 : NetOutcome
  ping : NetOutcome
  site : NetOutcome
  fb : ClientFBOutcome

/-- networkUtils.ts `extractDomain`: the hostname of the URL after
`ensureProtocol`, or the raw input when `new URL` throws. -/
def extractDomainC (parse : String → Option String) (url : String) : String :=
  match parse (ensureProtocol url) with
  | some host => host
  | none => url

/-- The scheme defaulting at the top of `performRealChecks`
(client-driven StatusDashboard, lines 73-78, case-sensitive startsWith). -/
def clientProcessedUrl (url : String) : String :=
  if jsStartsWith url httpSchemeLit || jsStartsWith url httpsSchemeLit then url
  else httpsSchemeLit ++ url

/-- The connection-stage error message of the client variant
(lines 188-193: no ETIMEDOUT case). -/
def connErrMsgClient (e : JsError) : String :=
  if e.code = some codeEconnaborted then msgConnTimeout
  else
    match e.message with
    | some m => if m = emptyStr then msgConnDefault else msgConnFailedPrefix ++ firstLine m
    | none => msgConnDefault

/-- The firstByte/download error message of the client variant
(lines 305-312). -/
def fbErrMsgClient (e : JsError) : String :=
  if e.code = some codeEconnaborted ∨ e.jsName = some nameAbort then msgReqTimeout
  else
    match e.responseStatus with
    | some n => msgServerStatusPrefix ++ toString n
    | none =>
      match e.message with
      | some m => if m = emptyStr then msgReqFailed else firstLine m
      | none => msgReqFailed

/-- Final state of one client-driven run, with the list of attempted
network operations and of `onCheckComplete` invocations. -/
structure ClientResult where
  stages : List Stage
  isComplete : Bool
  isSuccess : Bool
  totalResponseTime : Nat
  errorMessage : String
  progress : Nat
  ops : List String
  completions : List (Bool × Nat)
deriving DecidableEq

/-- `completeCheck` (client-driven StatusDashboard, lines 355-366). -/
def completeCheck (success : Bool) (total : Nat) (err : Option String)
    (stages : List Stage) (ops : List String) : ClientResult :=
  { stages := stages, isComplete := true, isSuccess := success,
    totalResponseTime := total,
    errorMessage := err.getD emptyStr, progress := 100,
    ops := ops, completions := [(success, total)] }

/-- Client firstByte/download phase (client-driven StatusDashboard,
lines 218-328), entered with `cum` accumulated milliseconds.  The
no-cors fetch path simulates the download at a nominal 500ms; React
state reads are interpreted sequentially. -/
def clientFbPhase (t cum : Nat) (stages : List Stage) (ops : List String)
    (o : ClientFBOutcome) : ClientResult :=
  let st := setStage stages 3 setLoading
  match o with
  | ClientFBOutcome.fetchOk fbMs =>
    let st := setStage st 3 (mkSuccess (t + fbMs) fbMs)
    let st := setStage st 4 setLoading
    let st := setStage st 4 (mkSuccess (t + fbMs + 500) 500)
    completeCheck true (cum + fbMs + 500) none st (ops ++ [opFetchGet])
  | ClientFBOutcome.axiosOk fbMs dlMs =>
    let st := setStage st 3 (mkSuccess (t + fbMs) fbMs)
    let st := setStage st 4 setLoading
    let st := setStage st 4 (mkSuccess (t + fbMs + dlMs) dlMs)
    completeCheck true (cum + fbMs + dlMs) none st (ops ++ [opFetchGet, opAxiosGet])
  | ClientFBOutcome.axiosErrFirstByte e fbMs =>
    let msg := fbErrMsgClient e
    let st := setStage st 3 (mkFailed (t + fbMs) fbMs msg)
    completeCheck false (cum + fbMs) (some msg) st (ops ++ [opFetchGet, opAxiosGet])
  | ClientFBOutcome.axiosErrDownload e fbMs dlMs =>
    let msg := fbErrMsgClient e
    let st := setStage st 3 (mkSuccess (t + fbMs) fbMs)
    let st := setStage st 4 setLoading
    let st := setStage st 4 (mkFailed (t + fbMs + dlMs) dlMs msg)
    completeCheck false (cum + fbMs + dlMs) (some msg) st (ops ++ [opFetchGet, opAxiosGet])

/-- `performRealChecks` (client-driven StatusDashboard, lines 67-337):
DNS is probed by up to two best-effort no-cors fetches against the
extracted domain; the connection stage first pings google.com and, when
that ping succeeds, marks the stage success even if the direct request
to the target fails; TLS is never actually tested (nominal 100ms for
https, skip note for http). -/
def clientCheck (url : String) (env : ClientEnv) : ClientResult :=
  let processedUrl := clientProcessedUrl url
  let st0 := setStage initialStages 0 setLoading
  let domain := extractDomainC env.parse processedUrl
  if domain = emptyStr then
    let st := setStage st0 0 (mkFailed 0 0 msgInvalidDomain)
    completeCheck false 0 (some (msgDnsFailedPrefix ++ msgInvalidDomain)) st []
  else
    let afterDns := fun (t cum : Nat) (st : List Stage) (ops : List String) =>
      let st := setStage st 1 setLoading
      match env.ping with
      | NetOutcome.err e pms =>
        let msg := connErrMsgClient e
        let st := setStage st 1 (mkFailed (t + pms) pms msg)
        completeCheck false (cum + pms) (some msg) st (ops ++ [opPingGoogle])
      | NetOutcome.ok pms =>
        let sms := match env.site with
          | NetOutcome.ok ms => ms
          | NetOutcome.err _ ms => ms
        let connMs := pms + sms
        let st := setStage st 1 (mkSuccess (t + connMs) connMs)
        let t := t + connMs
        let cum := cum + connMs
        let ops := ops ++ [opPingGoogle, opSiteHead]
        if jsStartsWith processedUrl httpsLit then
          let st := setStage st 2 setLoading
          let st := setStage st 2 (mkSuccess (t + 100) 100)
          clientFbPhase (t + 100) (cum + 100) st ops env.fb
        else
          let st := setStage st 2 (fun s =>
            { s with status := Status.success, timestamp := some t,
                     durationMs := some 0, errorDetails := some msgSkippedHTTP })
          clientFbPhase t cum st ops env.fb
    match env.dnsFetch1 with
    | NetOutcome.ok ms1 =>
      let st := setStage st0 0 (mkSuccess ms1 ms1)
      afterDns ms1 ms1 st [opDnsHead1]
    | NetOutcome.err _ ms1 =>
      match env.dnsFetch2 with
      | NetOutcome.ok ms2 =>
        let st := setStage st0 0 (mkSuccess (ms1 + ms2) (ms1 + ms2))
        afterDns (ms1 + ms2) (ms1 + ms2) st [opDnsHead1, opDnsHead2]
      | NetOutcome.err _ ms2 =>
        let st := setStage st0 0 (mkFailed (ms1 + ms2) (ms1 + ms2) msgDomainNotResolvable)
        completeCheck false (ms1 + ms2)
          (some (msgDnsFailedPrefix ++ msgDomainNotResolvable)) st
          [opDnsHead1, opDnsHead2]

/-- The string has the insecure http scheme: it begins, up to ASCII
case, with `http://`. -/
def hasInsecureHttpScheme (s : String) : Bool :=
  decide ((s.data.take 7).map Char.toLower = httpSchemeLit.data)

/-- Once a stage is in error state, every later stage in the list is idle. -/
def errorBlocksLater (stages : List Stage) : Prop :=
  List.Pairwise (fun a b => a.status = Status.error → b.status = Status.idle) stages

def msgEnotfound : String := "getaddrinfo ENOTFOUND nonexistent.invalid"

/-- A connection refusal as Node delivers it for a non-resolvable host. -/
def errEnotfound : JsError :=
  { message := some msgEnotfound }

def urlInvalidHost : String := "http://nonexistent.invalid"

/-- A run against a host whose connection attempt fails with ENOTFOUND;
the simulated DNS stage still takes 300ms and reports success. -/
def envConnErr : ServerEnv :=
  { dnsMs := 300, conn := NetOutcome.err errEnotfound 20,
    tls := NetOutcome.ok 0, fb := FBOutcome.bodyOk 0 0 }

def tsLit : String := "12:00:00"

/-- A mid-run state with live reader and abort refs and empty history. -/
def c4State : StopState :=
  { url := exHttpUrl, totalResponseTime := 120, readerActive := true,
    abortActive := true, isStopped := false, isComplete := false,
    errorMessage := emptyStr, progress := 50, history := [],
    readerCancelCalls := 0, abortCalls := 0, stopCallbackCalls := 0 }

def jsErrPlain : JsError := { }

/-- A URL string with no scheme that no URL parser accepts (it contains
a space). -/
def badUrl : String := "bad url"

/-- `new URL` throwing on every input. -/
def parseNone : String → Option String := fun _ => none

/-- Client environment for an unparseable target: the URL constructor
throws and both best-effort DNS fetches fail. -/
def envC7 : ClientEnv :=
  { parse := parseNone, dnsFetch1 := NetOutcome.err jsErrPlain 30,
    dnsFetch2 := NetOutcome.err jsErrPlain 30, ping := NetOutcome.ok 0,
    site := NetOutcome.ok 0, fb := ClientFBOutcome.fetchOk 0 }

def hostExample : String := "example.com"

/-- `new URL` resolving every input to example.com's hostname. -/
def parseExample : String → Option String := fun _ => some hostExample

/-- Client environment in which the google.com ping succeeds but the
direct request to the target fails. -/
def envC8 : ClientEnv :=
  { parse := parseExample, dnsFetch1 := NetOutcome.ok 10,
    dnsFetch2 := NetOutcome.ok 0, ping := NetOutcome.ok 5,
    site := NetOutcome.err errEnotfound 15, fb := ClientFBOutcome.fetchOk 3 }

def upperSchemeUrl : String := "HTTP://example.com"

/-! Helper lemmas about the scheme tests. -/

theorem insecure_not_https (s : String) (h : hasInsecureHttpScheme s = true) :
    jsStartsWith s httpsLit = false := by
  unfold hasInsecureHttpScheme at h
  unfold jsStartsWith
  rw [decide_eq_true_eq] at h
  rw [decide_eq_false_iff_not]
  intro hc
  have hlen : httpsLit.data.length = 5 := by decide
  rw [hlen] at hc
  have h5 : (s.data.take 5).map Char.toLower = httpSchemeLit.data.take 5 := by
    have ht : s.data.take 5 = (s.data.take 7).take 5 := by
      rw [List.take_take]
      norm_num
    rw [ht, List.map_take, h]
  rw [hc] at h5
  exact absurd h5 (by decide)

theorem matches_of_startsWith_http (u : String)
    (h : jsStartsWith u httpSchemeLit = true) : matchesProtoRegex u = true := by
  unfold jsStartsWith at h
  rw [decide_eq_true_eq] at h
  unfold matchesProtoRegex
  have hm : (u.data.take 7).map Char.toLower = httpSchemeLit.data := by
    have hlen : httpSchemeLit.data.length = 7 := by decide
    rw [hlen] at h
    rw [h]
    decide
  simp [hm]

theorem matches_of_startsWith_https (u : String)
    (h : jsStartsWith u httpsSchemeLit = true) : matchesProtoRegex u = true := by
  unfold jsStartsWith at h
  rw [decide_eq_true_eq] at h
  unfold matchesProtoRegex
  have hm : (u.data.take 8).map Char.toLower = httpsSchemeLit.data := by
    have hlen : httpsSchemeLit.data.length = 8 := by decide
    rw [hlen] at h
    rw [h]
    decide
  simp [hm]

theorem matches_https_append (u : String) :
    matchesProtoRegex (httpsSchemeLit ++ u) = true := rfl

theorem https_append_ne_empty (u : String) : httpsSchemeLit ++ u ≠ emptyStr := by
  intro h
  have hd := congrArg String.data h
  rw [String.data_append] at hd
  exact absurd hd (by simp [httpsSchemeLit, emptyStr])

theorem matches_ne_empty (u : String) (h : matchesProtoRegex u = true) : u ≠ emptyStr := by
  intro he
  subst he
  exact absurd h (by decide)

theorem ensureProtocol_of_not_matches (u : String) (hne : u ≠ emptyStr)
    (h : matchesProtoRegex u = false) : ensureProtocol u = httpsSchemeLit ++ u := by
  unfold ensureProtocol
  rw [if_neg hne, if_neg (by rw [h]; exact Bool.false_ne_true)]

theorem ensureProtocol_of_matches (u : String) (h : matchesProtoRegex u = true) :
    ensureProtocol u = u := by
  unfold ensureProtocol
  rw [if_neg (matches_ne_empty u h), if_pos h]

/-! Claim theorems. -/

/-- C1, counterexample: in a fully successful run over http://example.com
the snapshot emitted right after the DNS stage completes carries
totalResponseTime = 0 even though the DNS stage already holds
durationMs = 300, so the claimed per-snapshot equality fails; the server
only writes `totalResponseTime` on the terminal paths. -/
theorem c1_total_not_sum_at_update :
    ¬ (∀ w ∈ (serverCheck exHttpUrl envAllOk).wires,
        w.data.totalResponseTime = attributedSum w.data) := by decide

/-- C1, amended: at every emitted `final` snapshot, and only there,
`totalResponseTime` equals the sum of `durationMs` over the stages in
success or error state; intermediate `update` snapshots keep the field
at its initial 0. -/
theorem c1_total_eq_sum_at_final (url : String) (env : ServerEnv) :
    ∀ w ∈ (serverCheck url env).wires, w.type = WireType.final →
      w.data.totalResponseTime = attributedSum w.data := by
  obtain ⟨dnsMs, conn, tls, fb, loc, ip⟩ := env
  cases conn <;> cases hh : jsStartsWith (ensureProtocol url) httpsLit <;>
    cases tls <;> cases fb <;>
      simp [serverCheck, tlsPhase, fbPhase, hh, attributedSum, initialStages,
            setStage, setLoading, mkSuccess, mkFailed] <;> omega

/-- Witness for C1's amended theorem at a concrete run. -/
theorem c1_total_eq_sum_at_final_witness :
    (lastWire (serverCheck exHttpUrl envAllOk)).data.totalResponseTime
      = attributedSum (lastWire (serverCheck exHttpUrl envAllOk)).data :=
  c1_total_eq_sum_at_final exHttpUrl envAllOk
    (lastWire (serverCheck exHttpUrl envAllOk)) (by decide) (by decide)

/-- C2, evaluation at the failing input: on the fully successful run the
server writes the terminal object twice — once inside the response `end`
handler and once after the try block — so the stream contains two
`type=final` objects and two snapshots with isComplete=true, the last
two of the run, contradicting the exactly-one-terminal contract. -/
theorem c2_duplicate_final_on_success :
    ((serverCheck exHttpUrl envAllOk).wires.filter
        (fun w => decide (w.type = WireType.final))).length = 2 ∧
    ((serverCheck exHttpUrl envAllOk).wires.filter
        (fun w => w.data.isComplete)).length = 2 ∧
    (lastWire (serverCheck exHttpUrl envAllOk)).type = WireType.final := by decide

/-- C3, counterexample: for target http://nonexistent.invalid with a
failing connection attempt, the DNS stage never reaches error state in
any snapshot (the server simulates DNS success), the connection stage —
far from remaining idle — ends in error, and a connection attempt was
made. -/
theorem c3_dns_never_fails_counterexample :
    (∀ w ∈ (serverCheck urlInvalidHost envConnErr).wires,
      (stageAt w.data.stages 0).status ≠ Status.error) ∧
    (stageAt (lastWire (serverCheck urlInvalidHost envConnErr)).data.stages 1).status
      = Status.error ∧
    opConnHead ∈ (serverCheck urlInvalidHost envConnErr).ops := by decide

/-- C3, amended: the DNS stage does not resolve anything — it reports
success unconditionally — so a non-resolvable host surfaces as a
connection-stage error: the run terminates with one final snapshot in
which dns is success, connection is error with the connection error
message, tls/firstByte/download stay idle, isComplete=true and
isSuccess=false, after an attempted connection. -/
theorem c3_dns_simulated_conn_error_terminal (url : String) (env : ServerEnv)
    (e : JsError) (ms : Nat) (h : env.conn = NetOutcome.err e ms) :
    (∀ w ∈ (serverCheck url env).wires,
      (stageAt w.data.stages 0).status ≠ Status.error) ∧
    (lastWire (serverCheck url env)).type = WireType.final ∧
    (lastWire (serverCheck url env)).data.isComplete = true ∧
    (lastWire (serverCheck url env)).data.isSuccess = false ∧
    (stageAt (lastWire (serverCheck url env)).data.stages 0).status = Status.success ∧
    (stageAt (lastWire (serverCheck url env)).data.stages 1).status = Status.error ∧
    (stageAt (lastWire (serverCheck url env)).data.stages 2).status = Status.idle ∧
    (stageAt (lastWire (serverCheck url env)).data.stages 3).status = Status.idle ∧
    (stageAt (lastWire (serverCheck url env)).data.stages 4).status = Status.idle ∧
    (lastWire (serverCheck url env)).data.errorMessage = connErrMsg e ∧
    opConnHead ∈ (serverCheck url env).ops := by
  simp [serverCheck, h, lastWire, stageAt, initialStages, setStage, setLoading,
        mkSuccess, mkFailed, defaultStage, defaultWire, opConnHead]

/-- Witness for C3's amended theorem at a concrete run. -/
theorem c3_conn_error_terminal_witness :
    (lastWire (serverCheck urlInvalidHost envConnErr)).type = WireType.final :=
  (c3_dns_simulated_conn_error_terminal urlInvalidHost envConnErr
    errEnotfound 20 (by decide)).2.1

/-- C5, confirmed: in every emitted snapshot of every run, once a stage
has error status, every later stage in the dns → connection → tls →
firstByte → download order is idle. -/
theorem c5_error_blocks_later_stages (url : String) (env : ServerEnv) :
    ∀ w ∈ (serverCheck url env).wires, errorBlocksLater w.data.stages := by
  obtain ⟨dnsMs, conn, tls, fb, loc, ip⟩ := env
  cases conn <;> cases hh : jsStartsWith (ensureProtocol url) httpsLit <;>
    cases tls <;> cases fb <;>
      simp [serverCheck, tlsPhase, fbPhase, hh, errorBlocksLater, initialStages,
            setStage, setLoading, mkSuccess, mkFailed]

/-- Witness for C5 at a concrete run whose connection stage fails. -/
theorem c5_error_blocks_later_stages_witness :
    errorBlocksLater (lastWire (serverCheck urlInvalidHost envConnErr)).data.stages :=
  c5_error_blocks_later_stages urlInvalidHost envConnErr
    (lastWire (serverCheck urlInvalidHost envConnErr)) (by decide)

/-- C6, confirmed: when the processed URL has the insecure http scheme,
no TLS request is ever made and the TLS stage never enters loading; in
every snapshot in which it is success it carries durationMs = 0 and
errorDetails = "Skipped (HTTP)", and whenever the run gets past the
connection stage the terminal snapshot does show it as success. -/
theorem c6_tls_skipped_for_http (url : String) (env : ServerEnv)
    (h : hasInsecureHttpScheme (ensureProtocol url) = true) :
    opTlsHead ∉ (serverCheck url env).ops ∧
    (∀ w ∈ (serverCheck url env).wires,
      (stageAt w.data.stages 2).status ≠ Status.loading ∧
      ((stageAt w.data.stages 2).status = Status.success →
        (stageAt w.data.stages 2).durationMs = some 0 ∧
        (stageAt w.data.stages 2).errorDetails = some msgSkippedHTTP)) ∧
    (∀ ms : Nat, env.conn = NetOutcome.ok ms →
      (stageAt (lastWire (serverCheck url env)).data.stages 2).status
        = Status.success) := by
  have hh := insecure_not_https (ensureProtocol url) h
  obtain ⟨dnsMs, conn, tls, fb, loc, ip⟩ := env
  cases conn <;> cases fb <;>
    simp [serverCheck, tlsPhase, fbPhase, hh, lastWire, stageAt, initialStages,
          setStage, setLoading, mkSuccess, mkFailed, defaultStage, defaultWire,
          opTlsHead, opConnHead, opGetRequest]

/-- Witness for C6 at a concrete http run. -/
theorem c6_tls_skipped_for_http_witness :
    opTlsHead ∉ (serverCheck exHttpUrl envAllOk).ops :=
  (c6_tls_skipped_for_http exHttpUrl envAllOk (by decide)).1

/-- C7, counterexample: for the scheme-less, syntactically invalid
target "bad url" (every URL parse fails), the client DNS stage does not
fail with "Invalid domain": extractDomain falls back to the raw string,
best-effort fetches are attempted, and the stage ends in error with
"Domain not resolvable". -/
theorem c7_invalid_url_not_invalid_domain :
    (stageAt (clientCheck badUrl envC7).stages 0).status = Status.error ∧
    (stageAt (clientCheck badUrl envC7).stages 0).errorDetails
      = some msgDomainNotResolvable ∧
    (stageAt (clientCheck badUrl envC7).stages 0).errorDetails
      ≠ some msgInvalidDomain ∧
    opDnsHead1 ∈ (clientCheck badUrl envC7).ops := by decide

/-- C7, amended: `ensureProtocol` defaults scheme-less URLs to https://
(the URL input form instead prepends http:// before submitting); a
processed URL that fails to parse does not yield "Invalid domain" —
`extractDomain` falls back to the raw string, the reachability fetches
run, and when both fail the DNS stage ends error with
"Domain not resolvable", the run is complete and failed, and all later
stages stay idle. -/
theorem c7_scheme_default_and_unresolvable (u : String) (env : ClientEnv)
    (hne : u ≠ emptyStr) (hns : matchesProtoRegex u = false)
    (hp : env.parse (httpsSchemeLit ++ u) = none)
    (e1 : JsError) (m1 : Nat) (h1 : env.dnsFetch1 = NetOutcome.err e1 m1)
    (e2 : JsError) (m2 : Nat) (h2 : env.dnsFetch2 = NetOutcome.err e2 m2) :
    ensureProtocol u = httpsSchemeLit ++ u ∧
    formProcess u = httpSchemeLit ++ u ∧
    (stageAt (clientCheck u env).stages 0).status = Status.error ∧
    (stageAt (clientCheck u env).stages 0).errorDetails
      = some msgDomainNotResolvable ∧
    (clientCheck u env).isComplete = true ∧
    (clientCheck u env).isSuccess = false ∧
    (stageAt (clientCheck u env).stages 1).status = Status.idle ∧
    (stageAt (clientCheck u env).stages 2).status = Status.idle ∧
    (stageAt (clientCheck u env).stages 3).status = Status.idle ∧
    (stageAt (clientCheck u env).stages 4).status = Status.idle ∧
    opDnsHead1 ∈ (clientCheck u env).ops ∧
    opDnsHead2 ∈ (clientCheck u env).ops := by
  have hsw1 : jsStartsWith u httpSchemeLit = false := by
    cases hb : jsStartsWith u httpSchemeLit
    · rfl
    · have hmm := matches_of_startsWith_http u hb
      rw [hns] at hmm
      exact absurd hmm Bool.false_ne_true
  have hsw2 : jsStartsWith u httpsSchemeLit = false := by
    cases hb : jsStartsWith u httpsSchemeLit
    · rfl
    · have hmm := matches_of_startsWith_https u hb
      rw [hns] at hmm
      exact absurd hmm Bool.false_ne_true
  have hcp : clientProcessedUrl u = httpsSchemeLit ++ u := by
    unfold clientProcessedUrl
    rw [hsw1, hsw2]
    rfl
  have hdom : extractDomainC env.parse (httpsSchemeLit ++ u) = httpsSchemeLit ++ u := by
    unfold extractDomainC
    rw [ensureProtocol_of_matches _ (matches_https_append u), hp]
  refine ⟨ensureProtocol_of_not_matches u hne hns, ?_, ?_⟩
  · unfold formProcess
    rw [if_neg (by rw [hns]; exact Bool.false_ne_true)]
  · simp [clientCheck, hcp, hdom, https_append_ne_empty u, h1, h2, completeCheck,
          stageAt, initialStages, setStage, setLoading, mkSuccess, mkFailed,
          defaultStage, opDnsHead1, opDnsHead2]

/-- Witness for C7's amended theorem at the concrete unparseable target. -/
theorem c7_scheme_default_witness :
    ensureProtocol badUrl = httpsSchemeLit ++ badUrl :=
  (c7_scheme_default_and_unresolvable badUrl envC7 (by decide) (by decide) rfl
    jsErrPlain 30 rfl jsErrPlain 30 rfl).1

/-- C8, confirmed: in the client-driven variant, whenever the google.com
reachability ping succeeds, the connection stage is marked success even
though the direct request to the target failed, and the run proceeds to
the TLS stage and beyond. -/
theorem c8_ping_conflation_marks_connection_success (url : String) (env : ClientEnv)
    (hdom : extractDomainC env.parse (clientProcessedUrl url) ≠ emptyStr)
    (d : Nat) (hd : env.dnsFetch1 = NetOutcome.ok d)
    (p : Nat) (hp : env.ping = NetOutcome.ok p)
    (e : JsError) (sms : Nat) (hs : env.site = NetOutcome.err e sms) :
    (stageAt (clientCheck url env).stages 1).status = Status.success ∧
    (stageAt (clientCheck url env).stages 2).status = Status.success ∧
    opSiteHead ∈ (clientCheck url env).ops := by
  cases hfb : env.fb <;> cases hh : jsStartsWith (clientProcessedUrl url) httpsLit <;>
    simp [clientCheck, clientFbPhase, completeCheck, hd, hp, hs, hfb, hh, hdom,
          stageAt, initialStages, setStage, setLoading, mkSuccess, mkFailed,
          defaultStage, opSiteHead, opPingGoogle, opDnsHead1, opFetchGet, opAxiosGet]

/-- Witness for C8 at a concrete run with failing direct request. -/
theorem c8_ping_conflation_witness :
    (stageAt (clientCheck exHttpUrl envC8).stages 1).status = Status.success :=
  (c8_ping_conflation_marks_connection_success exHttpUrl envC8 (by decide)
    10 rfl 5 rfl errEnotfound 15 rfl).1

/-- C9, counterexample: "HTTP://example.com" is non-empty and is
returned unchanged by ensureProtocol (the scheme regex is
case-insensitive), yet the result begins with neither the exact string
http:// nor https://. -/
theorem c9_uppercase_scheme_counterexample :
    upperSchemeUrl ≠ emptyStr ∧
    ensureProtocol upperSchemeUrl = upperSchemeUrl ∧
    jsStartsWith (ensureProtocol upperSchemeUrl) httpSchemeLit = false ∧
    jsStartsWith (ensureProtocol upperSchemeUrl) httpsSchemeLit = false := by decide

/-- C9, amended: ensureProtocol maps the empty string to the empty
string, maps every non-empty input to a string that begins with http://
or https:// up to ASCII letter case, and is idempotent. -/
theorem c9_ensureProtocol_amended :
    ensureProtocol emptyStr = emptyStr ∧
    (∀ u : String, u ≠ emptyStr → matchesProtoRegex (ensureProtocol u) = true) ∧
    (∀ u : String, ensureProtocol (ensureProtocol u) = ensureProtocol u) := by
  refine ⟨rfl, ?_, ?_⟩
  · intro u hne
    cases hm : matchesProtoRegex u
    · rw [ensureProtocol_of_not_matches u hne hm]
      exact matches_https_append u
    · rw [ensureProtocol_of_matches u hm]
      exact hm
  · intro u
    by_cases hne : u = emptyStr
    · subst hne
      rfl
    · cases hm : matchesProtoRegex u
      · rw [ensureProtocol_of_not_matches u hne hm]
        exact ensureProtocol_of_matches _ (matches_https_append u)
      · rw [ensureProtocol_of_matches u hm, ensureProtocol_of_matches u hm]

/-- Witness for C9's amended theorem at a concrete scheme-less input. -/
theorem c9_ensureProtocol_amended_witness :
    matchesProtoRegex (ensureProtocol hostExample) = true :=
  c9_ensureProtocol_amended.2.1 hostExample (by decide)

/-- C4, counterexample: from a mid-run state, calling handleStopChecks
twice is observably different from calling it once — the second call
saves a second cancellation entry to history and invokes the stop
callback again, so it is not a no-op. -/
theorem c4_stop_not_idempotent :
    handleStopChecks tsLit (handleStopChecks tsLit c4State)
      ≠ handleStopChecks tsLit c4State ∧
    (handleStopChecks tsLit (handleStopChecks tsLit c4State)).history.length = 2 ∧
    (handleStopChecks tsLit (handleStopChecks tsLit c4State)).stopCallbackCalls = 2 := by
  decide

/-- C4, amended: the second Stop() call cancels nothing further — the
reader and abort refs were cleared by the first call — but it is not a
no-op: it repeats the terminal state updates, invokes the stop callback
once more, and saves a duplicate cancellation entry to history. -/
theorem c4_second_stop_effects (ts : String) (s : StopState) :
    (handleStopChecks ts (handleStopChecks ts s)).readerCancelCalls
      = (handleStopChecks ts s).readerCancelCalls ∧
    (handleStopChecks ts (handleStopChecks ts s)).abortCalls
      = (handleStopChecks ts s).abortCalls ∧
    (handleStopChecks ts (handleStopChecks ts s)).stopCallbackCalls
      = (handleStopChecks ts s).stopCallbackCalls + 1 ∧
    (handleStopChecks ts (handleStopChecks ts s)).history
      = saveCheckToHistory
          { url := (handleStopChecks ts s).url, timestamp := ts, success := false,
            responseTime := (handleStopChecks ts s).totalResponseTime,
            errorMessage := some msgStopped }
          (handleStopChecks ts s).history ∧
    (handleStopChecks ts (handleStopChecks ts s)).errorMessage = msgStopped := by
  by_cases hr : s.readerActive <;> by_cases ha : s.abortActive <;>
    simp [handleStopChecks, hr, ha, saveCheckToHistory]

/-- C10, confirmed: saveCheckToHistory keeps the persisted history at no
more than 50 items, with the newly saved item first, whatever the prior
history was. -/
theorem c10_history_bound (item : HistoryItem) (prior : List HistoryItem) :
    (saveCheckToHistory item prior).length ≤ 50 ∧
    (saveCheckToHistory item prior).head? = some item := by
  constructor
  · simp [saveCheckToHistory]
  · rfl

end WSC
